import Mathlib

/-!
Application.cpp: shader loader, error guard, shader compiler, render loop

A shallow embedding of `src/Application.cpp`.  Text is `String`, a file is the
finite sequence of lines that `getline` yields, the graphics driver is an
explicit state, and the animation scalar is a binary32 value.
-/

namespace Application

/-! ## `std::string::find` -/

/-- Search `pat` in the remaining characters, `pos` being the index of the first
of them; `none` stands for `std::string::npos`. -/
def findFrom (pat : List Char) : List Char → Nat → Option Nat
  | [], pos => if pat.isPrefixOf [] then some pos else none
  | c :: cs, pos =>
    if pat.isPrefixOf (c :: cs) then some pos else findFrom pat cs (pos + 1)

/-- The call `line.find(pat)`: index of the first occurrence of `pat` in `line`,
or `none` for `npos`. -/
def find (line pat : String) : Option Nat :=
  findFrom pat.data line.data 0

/-! ## `ParseShader` (lines 52-113) -/

/-- The local `enum class ShaderType { NONE = -1, VERTEX = 0, FRAGMENT = 1 }`. -/
inductive ShaderType where
  | NONE
  | VERTEX
  | FRAGMENT
deriving DecidableEq, Repr

/-- The `struct ShaderProgramSource`. -/
structure ShaderProgramSource where
  VertexSource : String
  FragmentSource : String
deriving DecidableEq, Repr

/-- The locals of `ParseShader` that live across loop iterations: `type` and the
two buffers `ss[0]`, `ss[1]`. -/
structure ParseState where
  type : ShaderType
  ss0 : String
  ss1 : String
deriving DecidableEq, Repr

/-- The statement `ss[(int)type] << line << '\n'`; `(int)VERTEX = 0` and
`(int)FRAGMENT = 1`.  It is only reached with `type != NONE`. -/
def pushLine (st : ParseState) (line : String) : ParseState :=
  match st.type with
  | ShaderType.VERTEX => { st with ss0 := st.ss0 ++ line ++ "\n" }
  | ShaderType.FRAGMENT => { st with ss1 := st.ss1 ++ line ++ "\n" }
  | ShaderType.NONE => st

/-- One iteration of the `while (getline(stream, line))` loop body. -/
def parseLine (st : ParseState) (line : String) : ParseState :=
  if find line "#shader" ≠ none then
    if find line "vertex" ≠ none then
      { st with type := ShaderType.VERTEX }
    else if find line "fragment" ≠ none then
      { st with type := ShaderType.FRAGMENT }
    else st
  else if st.type ≠ ShaderType.NONE then
    pushLine st line
  else st

/-- The state of the locals before the loop. -/
def parseInit : ParseState :=
  { type := ShaderType.NONE, ss0 := "", ss1 := "" }

/-- The whole loop, run over the lines of the file in order. -/
def parseLoop (st : ParseState) (lines : List String) : ParseState :=
  lines.foldl parseLine st

/-- The function `ParseShader`, on the sequence of lines read from the file (the
empty sequence when the file cannot be opened). -/
def ParseShader (lines : List String) : ShaderProgramSource :=
  let st := parseLoop parseInit lines
  { VertexSource := st.ss0, FragmentSource := st.ss1 }

/-! ### The loader as the specification words it -/

/-- A marker line: the line holds the marker token. -/
def isMarkerLine (l : String) : Bool :=
  (find l "#shader").isSome

/-- The stage a marker line names: vertex, fragment, or none of the two. -/
def markerStage (l : String) : ShaderType :=
  if (find l "vertex").isSome then ShaderType.VERTEX
  else if (find l "fragment").isSome then ShaderType.FRAGMENT
  else ShaderType.NONE

/-- A stage marker: a marker line that names a stage. -/
def isStageMarker (l : String) : Bool :=
  isMarkerLine l && (markerStage l != ShaderType.NONE)

/-- The stage selected by the most recently seen stage marker among the lines
`seen`, with `NONE` when no stage marker has been seen. -/
def stageSeen (seen : List String) : ShaderType :=
  match seen.reverse.find? isStageMarker with
  | some m => markerStage m
  | none => ShaderType.NONE

/-- Does line number `i` of `file` belong to stage `t`: it is not a marker line
and the most recently seen stage marker before it selected `t`. -/
def belongsTo (t : ShaderType) (file : List String) (i : Nat) : Option String :=
  match file[i]? with
  | some l =>
    if !isMarkerLine l && (stageSeen (file.take i) == t) then some l else none
  | none => none

/-- The lines of `file` that belong to stage `t`, in file order. -/
def stageLines (t : ShaderType) (file : List String) : List String :=
  (List.range file.length).filterMap (belongsTo t file)

/-- Concatenation of `line ++ "\n"` over the lines, in order. -/
def concatLines (ls : List String) : String :=
  ls.foldr (fun l acc => l ++ "\n" ++ acc) ""

/-- The source text of stage `t` as the specification describes it. -/
def specSource (t : ShaderType) (file : List String) : String :=
  concatLines (stageLines t file)

/-- The narrower reading of a marker line, "a line beginning with the marker
token followed by a stage keyword": the token is a prefix of the line and one of
the two keywords occurs in the text after it. -/
def beginsWithMarker (l : String) : Bool :=
  "#shader".data.isPrefixOf l.data
    && ((findFrom "vertex".data (l.data.drop 7) 7).isSome
        || (findFrom "fragment".data (l.data.drop 7) 7).isSome)

/-- The line contains `pat` as a substring, at any position: some text before
`pat` and some text after it make up the line. -/
def containsSubstring (line pat : String) : Prop :=
  pat.data <:+: line.data

/-! ## The error guard: `GLClearErrors`, `GLLogCall`, `GLCall` (lines 13-48) -/

/-- The value of `GL_NO_ERROR` in the OpenGL headers. -/
def GL_NO_ERROR : Nat := 0

/-- The part of the world the error guard acts on: the rest of the driver state,
the queue of pending error codes (oldest first) and the text sent to `std::cout`. -/
structure GuardWorld (σ : Type) where
  state : σ
  errors : List Nat
  cout : String

/-- The driver call `glGetError()`: removes and returns the head of the queue,
`GL_NO_ERROR` when the queue is empty. -/
def glGetError {σ : Type} (w : GuardWorld σ) : Nat × GuardWorld σ :=
  match w.errors with
  | [] => (GL_NO_ERROR, w)
  | e :: es => (e, { w with errors := es })

/-- The function `GLClearErrors`: `while (glGetError() != GL_NO_ERROR);`. -/
def GLClearErrors {σ : Type} (w : GuardWorld σ) : GuardWorld σ :=
  if (glGetError w).1 ≠ GL_NO_ERROR then GLClearErrors (glGetError w).2
  else (glGetError w).2
termination_by w.errors.length
decreasing_by
  rename_i h
  unfold glGetError at h ⊢
  cases he : w.errors with
  | nil => rw [he] at h; exact absurd rfl h
  | cons e es => simp

/-- The line `GLLogCall` prints for the error code `error`. -/
def logLine (error : Nat) (function file : String) (line : Nat) : String :=
  "[OpenGL Error] (" ++ toString error ++ ") " ++ function ++ " " ++ file ++ ": "
    ++ toString line ++ "\n"

/-- The function `GLLogCall`.  The body of its `while` returns at once, so the
loop runs for one `glGetError()` at most: a non-zero code is printed and the
result is `false`, a zero code gives `true`. -/
def GLLogCall {σ : Type} (function file : String) (line : Nat) (w : GuardWorld σ) :
    Bool × GuardWorld σ :=
  let r := glGetError w
  if r.1 ≠ 0 then
    (false, { r.2 with cout := r.2.cout ++ logLine r.1 function file line })
  else (true, r.2)

/-- A driver call seen from the guard: it moves the driver state and raises
error codes, which join the queue behind the pending ones. -/
def runAction {σ : Type} (x : σ → σ × List Nat) (w : GuardWorld σ) : GuardWorld σ :=
  { w with state := (x w.state).1, errors := w.errors ++ (x w.state).2 }

/-- The macro `ASSERT(x)`: `true` when `__debugbreak()` is reached. -/
def ASSERT (x : Bool) : Bool := !x

/-- The macro `GLCall(x)`: `GLClearErrors(); x; ASSERT(GLLogCall(#x, __FILE__,
__LINE__))`.  The first component tells whether the assertion trapped. -/
def GLCall {σ : Type} (x : σ → σ × List Nat) (function file : String) (line : Nat)
    (w : GuardWorld σ) : Bool × GuardWorld σ :=
  let w1 := GLClearErrors w
  let w2 := runAction x w1
  let r := GLLogCall function file line w2
  (ASSERT r.1, r.2)

/-! ## `CompileShader` (lines 120-168) -/

/-- The value of `GL_FALSE` in the OpenGL headers. -/
def GL_FALSE : Int := 0

/-- The value of `GL_VERTEX_SHADER` in the OpenGL headers (0x8B31). -/
def GL_VERTEX_SHADER : Nat := 35633

/-- The value of `GL_FRAGMENT_SHADER` in the OpenGL headers (0x8B30). -/
def GL_FRAGMENT_SHADER : Nat := 35632

/-- The value of `GL_COMPILE_STATUS` in the OpenGL headers (0x8B81). -/
def GL_COMPILE_STATUS : Nat := 35713

/-- The value of `GL_INFO_LOG_LENGTH` in the OpenGL headers (0x8B84). -/
def GL_INFO_LOG_LENGTH : Nat := 35716

/-- The character that ends a C string. -/
def NUL : Char := Char.ofNat 0

/-- The C string that starts at the head of the memory `mem`, as `std::cout <<
message` reads it: the characters before the first `NUL`. -/
def cString (mem : List Char) : List Char :=
  mem.takeWhile (fun ch => ch != NUL)

/-- An abstract driver over a state `σ`: what each entry point used by
`CompileShader` returns and how it moves the state.  `glGetShaderiv` gives the
value found in `*params` after the call; `glGetShaderInfoLog`, called with the
buffer size `maxLength`, gives the characters it stores from the start of the
buffer on, the terminating `NUL` included when it stores one. -/
structure ShaderDriver (σ : Type) where
  glCreateShader : Nat → σ → Nat × σ
  glShaderSource : Nat → String → σ → σ
  glCompileShader : Nat → σ → σ
  glGetShaderiv : Nat → Nat → σ → Int × σ
  glGetShaderInfoLog : Nat → Int → σ → List Char × σ
  glDeleteShader : Nat → σ → σ

/-- The world `CompileShader` acts on: the driver state, the text sent to
`std::cout`, the ids passed to `glDeleteShader` so far, in order, and `stack`,
the characters held by the stack memory from the address on at which `alloca`
places the buffer `message` (the cells of the buffer, then those behind it);
`alloca` does not initialise them. -/
structure CompileWorld (σ : Type) where
  state : σ
  cout : String
  deleted : List Nat
  stack : List Char

/-- The function `CompileShader`. -/
def CompileShader {σ : Type} (drv : ShaderDriver σ) (type : Nat) (source : String)
    (w : CompileWorld σ) : Nat × CompileWorld σ :=
  let c := drv.glCreateShader type w.state
  let id := c.1
  let s1 := drv.glShaderSource id source c.2
  let s2 := drv.glCompileShader id s1
  let q := drv.glGetShaderiv id GL_COMPILE_STATUS s2
  let result := q.1
  if result = GL_FALSE then
    let ql := drv.glGetShaderiv id GL_INFO_LOG_LENGTH q.2
    let length := ql.1
    let m := drv.glGetShaderInfoLog id length ql.2
    let memory := m.1 ++ w.stack.drop m.1.length
    let message := String.mk (cString memory)
    let cout1 := w.cout ++ "Failed to Compile "
      ++ (if type = GL_VERTEX_SHADER then "vertex shader" else "fragment shader") ++ "\n"
    let cout2 := cout1 ++ message ++ "\n"
    (0, { state := drv.glDeleteShader id m.2, cout := cout2, deleted := w.deleted ++ [id],
          stack := memory })
  else
    (id, { state := q.2, cout := w.cout, deleted := w.deleted, stack := w.stack })

/-- The id `CompileShader` obtains from `glCreateShader`. -/
def createdId {σ : Type} (drv : ShaderDriver σ) (type : Nat) (w : CompileWorld σ) : Nat :=
  (drv.glCreateShader type w.state).1

/-- The driver state when `CompileShader` asks for the compile status. -/
def compiledState {σ : Type} (drv : ShaderDriver σ) (type : Nat) (source : String)
    (w : CompileWorld σ) : σ :=
  drv.glCompileShader (createdId drv type w)
    (drv.glShaderSource (createdId drv type w) source (drv.glCreateShader type w.state).2)

/-- The compile status the driver reports to `CompileShader`. -/
def compileStatus {σ : Type} (drv : ShaderDriver σ) (type : Nat) (source : String)
    (w : CompileWorld σ) : Int :=
  (drv.glGetShaderiv (createdId drv type w) GL_COMPILE_STATUS
    (compiledState drv type source w)).1

/-- The info-log length the driver reports to `CompileShader` on the failure
branch; it is the size of the buffer `message`. -/
def infoLogLength {σ : Type} (drv : ShaderDriver σ) (type : Nat) (source : String)
    (w : CompileWorld σ) : Int :=
  let id := createdId drv type w
  let q := drv.glGetShaderiv id GL_COMPILE_STATUS (compiledState drv type source w)
  (drv.glGetShaderiv id GL_INFO_LOG_LENGTH q.2).1

/-- The characters the driver stores in the buffer `message` on the failure
branch. -/
def storedLog {σ : Type} (drv : ShaderDriver σ) (type : Nat) (source : String)
    (w : CompileWorld σ) : List Char :=
  let id := createdId drv type w
  let q := drv.glGetShaderiv id GL_COMPILE_STATUS (compiledState drv type source w)
  let ql := drv.glGetShaderiv id GL_INFO_LOG_LENGTH q.2
  (drv.glGetShaderInfoLog id ql.1 ql.2).1

/-- The name of the stage in the diagnostic. -/
def stageLabel (type : Nat) : String :=
  if type = GL_VERTEX_SHADER then "vertex shader" else "fragment shader"

/-- A driver that creates shader 7 and rejects its source with a one-line log of
24 characters, reported with length 25 and stored with its terminating `NUL`. -/
def rejectingDriver : ShaderDriver Unit where
  glCreateShader := fun _ s => (7, s)
  glShaderSource := fun _ _ s => s
  glCompileShader := fun _ s => s
  glGetShaderiv := fun _ pname s => (if pname = GL_COMPILE_STATUS then 0 else 25, s)
  glGetShaderInfoLog := fun _ _ s => ("ERROR: 0:1: syntax error".data ++ [NUL], s)
  glDeleteShader := fun _ s => s

/-- A driver that creates shader 7 and rejects its source without any info log:
the reported log length is 0 and nothing is stored in the buffer. -/
def silentRejectingDriver : ShaderDriver Unit where
  glCreateShader := fun _ s => (7, s)
  glShaderSource := fun _ _ s => s
  glCompileShader := fun _ s => s
  glGetShaderiv := fun _ _ s => (0, s)
  glGetShaderInfoLog := fun _ _ s => ([], s)
  glDeleteShader := fun _ s => s

/-- A driver whose `glCreateShader` fails (returns 0) and whose status query
leaves a non-zero value behind. -/
def failingCreateDriver : ShaderDriver Unit where
  glCreateShader := fun _ s => (0, s)
  glShaderSource := fun _ _ s => s
  glCompileShader := fun _ s => s
  glGetShaderiv := fun _ _ s => (1, s)
  glGetShaderInfoLog := fun _ _ s => ([], s)
  glDeleteShader := fun _ s => s

/-! ## binary32 arithmetic

The locals `r` and `increment` are of type `float`.  Every finite binary32 value
is an integer multiple of `2^-149`, the smallest positive one, so a finite value
is written as the integer number of these units it holds: `1.0f` is `2^149`.
Operations are evaluated in binary32 and round to nearest, ties to even. -/

/-- The rational value of the binary32 value that holds `x` units of `2^-149`. -/
def f32ToRat (x : Int) : ℚ := (x : ℚ) / 2 ^ 149

/-- Search of the spacing of binary32 values around the magnitude `a` (in units):
the first of `q, 2 q, 4 q, ...` that leaves at most 24 bits in `a / q`. -/
def f32UlpSearch : Nat → Nat → Nat → Nat
  | 0, q, _ => q
  | fuel + 1, q, a => if a / q < 2 ^ 24 then q else f32UlpSearch fuel (2 * q) a

/-- The spacing, in units, of the binary32 values around the magnitude `a`: 1
below `2^24` units, then doubling with each binade; the format has 254 binades,
so the spacings are `2^0, ..., 2^253`. -/
def f32Ulp (a : Nat) : Nat := f32UlpSearch 254 1 a

/-- The exact value `num / den` units (`den > 0`), rounded to the nearest multiple
of the spacing at its magnitude, a tie going to the even multiple. -/
def f32RoundFrac (num : Int) (den : Nat) : Int :=
  let a := num.natAbs
  let u := f32Ulp (a / den)
  let q := u * den
  let down := a / q
  let rem := a % q
  let m := if 2 * rem > q ∨ (2 * rem = q ∧ down % 2 = 1) then down + 1 else down
  if num < 0 then -((m * u : Nat) : Int) else ((m * u : Nat) : Int)

/-- The largest finite binary32 value, `(2^24 - 1) * 2^104`, in units. -/
def f32Max : Nat := (2 ^ 24 - 1) * 2 ^ 253

/-- The binary32 value of the exact value `num / den` units, `none` when the
rounded value is beyond the finite range (the result is then an infinity, which
the model does not follow further). -/
def f32OfFrac (num : Int) (den : Nat) : Option Int :=
  let s := f32RoundFrac num den
  if s.natAbs ≤ f32Max then some s else none

/-- The binary32 sum `x + y`: the exact sum, rounded. -/
def f32Add (x y : Int) : Option Int := f32OfFrac (x + y) 1

/-- The binary32 value of the decimal literal `num / den`, as the compiler
rounds it. -/
def f32Literal (num : Int) (den : Nat) : Int := f32RoundFrac (num * 2 ^ 149) den

/-- The literal `0.0f`. -/
def f0_0 : Int := f32Literal 0 1

/-- The literal `1.0f`. -/
def f1_0 : Int := f32Literal 1 1

/-- The literal `0.05f`. -/
def f0_05 : Int := f32Literal 5 100

/-- The locals `float r` and `float increment`, each in units of `2^-149`. -/
structure Anim where
  r : Int
  increment : Int
deriving DecidableEq

/-- The values `float r = 0.0f; float increment = 0.05f;`. -/
def animInit : Anim := { r := f0_0, increment := f0_05 }

/-- The update at the end of the loop body: `if (r > 1.0f) increment = -0.05f;
else if (r < 0.0f) increment = 0.05f; r += increment;`.  The comparisons are
exact, the negation of a literal is exact, the sum is rounded. -/
def animStep (a : Anim) : Option Anim :=
  let increment : Int :=
    if a.r > f1_0 then -f0_05
    else if a.r < f0_0 then f0_05
    else a.increment
  match f32Add a.r increment with
  | some r => some { r := r, increment := increment }
  | none => none

/-- The locals after `n` iterations of the render loop. -/
def animAfter : Nat → Option Anim
  | 0 => some animInit
  | n + 1 => (animAfter n).bind animStep

/-- The rational values of `r` and `increment`. -/
def animToRat (a : Anim) : ℚ × ℚ := (f32ToRat a.r, f32ToRat a.increment)

/-- The locals `r` and `increment` taken as exact rationals. -/
structure ExactAnim where
  r : ℚ
  increment : ℚ
deriving DecidableEq

/-- The start `r = 0.0`, `increment = 0.05`, in exact rationals. -/
def exactInit : ExactAnim := { r := 0, increment := 5 / 100 }

/-- The update with exact comparisons and an exact sum: the increment becomes
`-0.05` if `r > 1.0`, else `0.05` if `r < 0.0`, then it is added to `r`. -/
def exactStep (a : ExactAnim) : ExactAnim :=
  let increment : ℚ :=
    if a.r > 1 then -(5 / 100)
    else if a.r < 0 then 5 / 100
    else a.increment
  { r := a.r + increment, increment := increment }

/-- The exact-rational locals after `n` updates. -/
def exactAfter (n : Nat) : ExactAnim := exactStep^[n] exactInit

/-! ## Geometry (lines 268-281, 324, 427) -/

/-- The array `positions`. -/
def positions : List ℚ :=
  [-(1 / 2), -(1 / 2), 0,
   1 / 2, -(1 / 2), 0,
   1 / 2, 1 / 2, 0,
   -(1 / 2), 1 / 2, 0]

/-- The array `indices`. -/
def indices : List Nat := [0, 1, 2, 2, 3, 0]

/-- The component count, second argument of `glVertexAttribPointer`. -/
def attribSize : Nat := 3

/-- The element count, second argument of `glDrawElements`. -/
def drawCount : Nat := 6

/-- The number of vertices in `positions`. -/
def vertexCount : Nat := positions.length / attribSize

/-! ## Lemmas on the loader -/

theorem parseLoop_append (st : ParseState) (a b : List String) :
    parseLoop st (a ++ b) = parseLoop (parseLoop st a) b := by
  simp [parseLoop, List.foldl_append]

theorem parseLoop_cons (st : ParseState) (l : String) (ls : List String) :
    parseLoop st (l :: ls) = parseLoop (parseLine st l) ls := rfl

theorem parseLoop_nil (st : ParseState) : parseLoop st [] = st := rfl

theorem concatLines_append (a b : List String) :
    concatLines (a ++ b) = concatLines a ++ concatLines b := by
  induction a with
  | nil => simp [concatLines]
  | cons x xs ih =>
    have h : concatLines (x :: (xs ++ b)) = x ++ "\n" ++ concatLines (xs ++ b) := rfl
    have h2 : concatLines (x :: xs) = x ++ "\n" ++ concatLines xs := rfl
    rw [List.cons_append, h, h2, ih, String.append_assoc (x ++ "\n")]

theorem concatLines_single (l : String) : concatLines [l] = l ++ "\n" := by
  simp [concatLines]

theorem stageSeen_snoc (pre : List String) (l : String) :
    stageSeen (pre ++ [l]) = if isStageMarker l then markerStage l else stageSeen pre := by
  unfold stageSeen
  rw [List.reverse_append, List.reverse_singleton, List.singleton_append, List.find?_cons]
  cases h : isStageMarker l <;> simp

theorem belongsTo_snoc_lt (t : ShaderType) (pre : List String) (l : String) (i : Nat)
    (h : i < pre.length) : belongsTo t (pre ++ [l]) i = belongsTo t pre i := by
  unfold belongsTo
  rw [List.getElem?_append_left h, List.take_append_of_le_length (Nat.le_of_lt h)]

theorem belongsTo_snoc_last (t : ShaderType) (pre : List String) (l : String) :
    belongsTo t (pre ++ [l]) pre.length
      = if !isMarkerLine l && (stageSeen pre == t) then some l else none := by
  unfold belongsTo
  simp

theorem stageLines_snoc (t : ShaderType) (pre : List String) (l : String) :
    stageLines t (pre ++ [l])
      = stageLines t pre
        ++ (if !isMarkerLine l && (stageSeen pre == t) then [l] else []) := by
  unfold stageLines
  rw [List.length_append, List.length_singleton, List.range_succ, List.filterMap_append]
  congr 1
  · apply List.filterMap_congr
    intro i hi
    exact belongsTo_snoc_lt t pre l i (List.mem_range.mp hi)
  · rw [List.filterMap_cons, belongsTo_snoc_last]
    by_cases hc : (!isMarkerLine l && (stageSeen pre == t)) = true
    · rw [if_pos hc, if_pos hc]; rfl
    · rw [if_neg hc, if_neg hc]; rfl

theorem specSource_snoc (t : ShaderType) (pre : List String) (l : String) :
    specSource t (pre ++ [l])
      = specSource t pre
        ++ (if !isMarkerLine l && (stageSeen pre == t) then l ++ "\n" else "") := by
  unfold specSource
  rw [stageLines_snoc, concatLines_append]
  by_cases hc : (!isMarkerLine l && (stageSeen pre == t)) = true
  · rw [if_pos hc, if_pos hc, concatLines_single]
  · rw [if_neg hc, if_neg hc]; rfl

/-- The loop invariant: after the lines `file` the local `type` is the stage of
the most recently seen stage marker and each buffer holds its stage's lines. -/
theorem parseLoop_init_eq (file : List String) :
    parseLoop parseInit file
      = { type := stageSeen file,
          ss0 := specSource ShaderType.VERTEX file,
          ss1 := specSource ShaderType.FRAGMENT file } := by
  induction file using List.reverseRecOn with
  | nil => rfl
  | append_singleton pre l ih =>
    rw [parseLoop_append, ih, parseLoop_cons, parseLoop_nil, stageSeen_snoc,
      specSource_snoc, specSource_snoc]
    unfold parseLine pushLine isStageMarker isMarkerLine markerStage
    cases h1 : find l "#shader" <;> cases h2 : find l "vertex"
      <;> cases h3 : find l "fragment" <;> cases h4 : stageSeen pre
      <;> simp [String.append_assoc]

/-- A line without the token, read while a stage is active, is pushed to that
stage; read before any stage, it is dropped. -/
theorem parseLine_body (st : ParseState) (l : String) (h : find l "#shader" = none) :
    parseLine st l = pushLine st l := by
  unfold parseLine pushLine
  rw [h]
  cases ht : st.type <;> simp

/-- A run of lines without the token leaves `type` alone and appends the run to
the active buffer. -/
theorem parseLoop_body (body : List String) (hb : ∀ l ∈ body, find l "#shader" = none)
    (t : ShaderType) (v f : String) :
    parseLoop { type := t, ss0 := v, ss1 := f } body
      = { type := t,
          ss0 := if t = ShaderType.VERTEX then v ++ concatLines body else v,
          ss1 := if t = ShaderType.FRAGMENT then f ++ concatLines body else f } := by
  induction body generalizing v f with
  | nil => cases t <;> simp [parseLoop, concatLines]
  | cons l ls ih =>
    have hl : find l "#shader" = none := hb l (List.mem_cons_self l ls)
    have hls : ∀ x ∈ ls, find x "#shader" = none :=
      fun x hx => hb x (List.mem_cons_of_mem l hx)
    have hc : concatLines (l :: ls) = l ++ "\n" ++ concatLines ls := rfl
    rw [parseLoop_cons, parseLine_body _ l hl, hc]
    cases t
    · simpa [pushLine] using ih hls v f
    · simpa [pushLine, String.append_assoc] using ih hls (v ++ l ++ "\n") f
    · simpa [pushLine, String.append_assoc] using ih hls v (f ++ l ++ "\n")

/-- What one line adds to the buffers does not depend on what they hold. -/
theorem parseLine_shift (t : ShaderType) (v f : String) (l : String) :
    parseLine { type := t, ss0 := v, ss1 := f } l
      = { type := (parseLine { type := t, ss0 := "", ss1 := "" } l).type,
          ss0 := v ++ (parseLine { type := t, ss0 := "", ss1 := "" } l).ss0,
          ss1 := f ++ (parseLine { type := t, ss0 := "", ss1 := "" } l).ss1 } := by
  unfold parseLine pushLine
  cases h1 : find l "#shader" <;> cases h2 : find l "vertex"
    <;> cases h3 : find l "fragment" <;> cases t
    <;> simp [String.append_assoc]

/-- What a run of lines adds to the buffers does not depend on what they hold. -/
theorem parseLoop_shift (ls : List String) (t : ShaderType) (v f : String) :
    parseLoop { type := t, ss0 := v, ss1 := f } ls
      = { type := (parseLoop { type := t, ss0 := "", ss1 := "" } ls).type,
          ss0 := v ++ (parseLoop { type := t, ss0 := "", ss1 := "" } ls).ss0,
          ss1 := f ++ (parseLoop { type := t, ss0 := "", ss1 := "" } ls).ss1 } := by
  induction ls generalizing t v f with
  | nil => simp [parseLoop]
  | cons l ls ih =>
    rw [parseLoop_cons, parseLoop_cons, parseLine_shift t v f l]
    generalize parseLine { type := t, ss0 := "", ss1 := "" } l = s1
    obtain ⟨t1, a, b⟩ := s1
    rw [ih t1 (v ++ a) (f ++ b), ih t1 a b]
    simp [String.append_assoc]

theorem stageLines_sublist (t : ShaderType) (file : List String) :
    List.Sublist (stageLines t file) file := by
  induction file using List.reverseRecOn with
  | nil => simp [stageLines]
  | append_singleton pre l ih =>
    rw [stageLines_snoc]
    apply List.Sublist.append ih
    split
    · exact List.Sublist.refl _
    · exact List.nil_sublist _

/-! ## The loader: claims -/

/-- C1: for every file, seen as its sequence of lines, `ParseShader` returns as
`VertexSource` the concatenation, in file order, of `line ++ "\n"` over exactly
the lines that are not marker lines and whose most recently seen stage marker
selected the vertex stage, and as `FragmentSource` the same concatenation for the
fragment stage; the lines of a stage are a subsequence of the file, so none is
duplicated or reordered, and every section of a stage is accumulated. -/
theorem ParseShader_eq_specSource (file : List String) :
    (ParseShader file).VertexSource = specSource ShaderType.VERTEX file
      ∧ (ParseShader file).FragmentSource = specSource ShaderType.FRAGMENT file
      ∧ List.Sublist (stageLines ShaderType.VERTEX file) file
      ∧ List.Sublist (stageLines ShaderType.FRAGMENT file) file := by
  unfold ParseShader
  rw [parseLoop_init_eq]
  exact ⟨rfl, rfl, stageLines_sublist _ file, stageLines_sublist _ file⟩

/-- C2, as stated, fails: a file of two marker sections whose first marker names
the fragment stage.  Both marker lines hold the token, no body line does, and
`VertexSource` is the body after the second marker, not the first. -/
theorem ParseShader_two_sections_fragment_first :
    find "#shader fragment" "#shader" ≠ none
      ∧ find "#shader vertex" "#shader" ≠ none
      ∧ (∀ l ∈ ["f"] ++ ["v"], find l "#shader" = none)
      ∧ ParseShader ("#shader fragment" :: ["f"] ++ "#shader vertex" :: ["v"])
          = { VertexSource := "v\n", FragmentSource := "f\n" }
      ∧ ParseShader ("#shader fragment" :: ["f"] ++ "#shader vertex" :: ["v"])
          ≠ { VertexSource := concatLines ["f"], FragmentSource := concatLines ["v"] } := by
  decide

/-- C2, amended: for a file made of a marker line that names the vertex stage,
body lines, a marker line that names the fragment stage (and not the vertex
stage), body lines, no body line holding the token, `VertexSource` is the first
body and `FragmentSource` the second, each line followed by a newline, in order. -/
theorem ParseShader_two_sections (m1 m2 : String) (body1 body2 : List String)
    (h1 : find m1 "#shader" ≠ none) (h1v : find m1 "vertex" ≠ none)
    (h2 : find m2 "#shader" ≠ none) (h2v : find m2 "vertex" = none)
    (h2f : find m2 "fragment" ≠ none)
    (hb1 : ∀ l ∈ body1, find l "#shader" = none)
    (hb2 : ∀ l ∈ body2, find l "#shader" = none) :
    ParseShader (m1 :: body1 ++ m2 :: body2)
      = { VertexSource := concatLines body1, FragmentSource := concatLines body2 } := by
  unfold ParseShader
  have e1 : parseLine parseInit m1 = { type := ShaderType.VERTEX, ss0 := "", ss1 := "" } := by
    simp [parseLine, parseInit, h1, h1v]
  have e2 : ∀ v f, parseLine { type := ShaderType.VERTEX, ss0 := v, ss1 := f } m2
      = { type := ShaderType.FRAGMENT, ss0 := v, ss1 := f } := by
    intro v f
    simp [parseLine, h2, h2v, h2f]
  rw [List.cons_append, parseLoop_cons, e1, parseLoop_append, parseLoop_body body1 hb1,
    parseLoop_cons, e2, parseLoop_body body2 hb2]
  simp

theorem ParseShader_two_sections_witness :
    ParseShader ("#shader vertex" :: ["a", "", "// b"] ++ "#shader fragment" :: ["c", "d"])
      = { VertexSource := concatLines ["a", "", "// b"],
          FragmentSource := concatLines ["c", "d"] } :=
  ParseShader_two_sections "#shader vertex" "#shader fragment" ["a", "", "// b"] ["c", "d"]
    (by decide) (by decide) (by decide) (by decide) (by decide) (by decide) (by decide)

/-- C3, as stated, fails: the lines `#stage vertex` and `#stage fragment` do not
hold the token `#shader`, so with `X = "a"` and `Y = "b"` all four lines are read
before any stage and dropped.  With the token `#shader` in the two marker lines
the bundle is still not the stated one when `X` itself holds the token. -/
theorem ParseShader_stage_token_dropped :
    ParseShader ["#stage vertex", "a", "#stage fragment", "b"]
        = { VertexSource := "", FragmentSource := "" }
      ∧ ParseShader ["#stage vertex", "a", "#stage fragment", "b"]
        ≠ { VertexSource := "a" ++ "\n", FragmentSource := "b" ++ "\n" }
      ∧ ParseShader ["#shader vertex", "#shader fragment", "#shader fragment", "b"]
        ≠ { VertexSource := "#shader fragment" ++ "\n", FragmentSource := "b" ++ "\n" } := by
  decide

/-- C3, amended: for single-line bodies `X` and `Y` that do not hold the token
`#shader`, the four-line file `#shader vertex`, `X`, `#shader fragment`, `Y`
gives `VertexSource = X ++ "\n"` and `FragmentSource = Y ++ "\n"`. -/
theorem ParseShader_four_lines (X Y : String)
    (hX : find X "#shader" = none) (hY : find Y "#shader" = none) :
    ParseShader ["#shader vertex", X, "#shader fragment", Y]
      = { VertexSource := X ++ "\n", FragmentSource := Y ++ "\n" } := by
  have a1 : find "#shader vertex" "#shader" ≠ none := by decide
  have a2 : find "#shader vertex" "vertex" ≠ none := by decide
  have a3 : find "#shader fragment" "#shader" ≠ none := by decide
  have a4 : find "#shader fragment" "vertex" = none := by decide
  have a5 : find "#shader fragment" "fragment" ≠ none := by decide
  simp [ParseShader, parseLoop, parseLine, pushLine, parseInit, hX, hY, a1, a2, a3, a4, a5]

theorem ParseShader_four_lines_witness :
    ParseShader ["#shader vertex", "gl_Position = position;", "#shader fragment",
        "color = u_Color;"]
      = { VertexSource := "gl_Position = position;" ++ "\n",
          FragmentSource := "color = u_Color;" ++ "\n" } :=
  ParseShader_four_lines "gl_Position = position;" "color = u_Color;" (by decide) (by decide)

/-- C4: lines read before the first marker line are dropped: when no line of
`pre` holds the token, `ParseShader` gives the same bundle on `pre ++ rest` as on
`rest`, and a file without any marker line gives two empty strings.  The result
is a plain bundle: there is no error value to signal. -/
theorem ParseShader_drop_preamble (pre rest : List String)
    (h : ∀ l ∈ pre, find l "#shader" = none) :
    ParseShader (pre ++ rest) = ParseShader rest
      ∧ ParseShader pre = { VertexSource := "", FragmentSource := "" } := by
  have hp : parseLoop parseInit pre = parseInit := by
    unfold parseInit
    rw [parseLoop_body pre h]
    simp
  unfold ParseShader
  rw [parseLoop_append, hp]
  exact ⟨rfl, rfl⟩

theorem ParseShader_drop_preamble_witness :
    ParseShader (["// Basic.shader", ""] ++ ["#shader vertex", "a"])
        = ParseShader ["#shader vertex", "a"]
      ∧ ParseShader ["// Basic.shader", ""] = { VertexSource := "", FragmentSource := "" } :=
  ParseShader_drop_preamble ["// Basic.shader", ""] ["#shader vertex", "a"] (by decide)

/-- C5, as stated, fails: in the file `#shader fragment`, `// #shader vertex`,
`x` the second line is a comment that does not begin with the token, so it is
not a marker line in the stated sense, and the fragment stage is active when it
is read; yet it is not passed through (`FragmentSource` is empty) and it changes
the active stage to vertex, where the line `x` then lands. -/
theorem ParseShader_comment_with_token :
    beginsWithMarker "// #shader vertex" = false
      ∧ (parseLoop parseInit ["#shader fragment"]).type = ShaderType.FRAGMENT
      ∧ (parseLoop parseInit ["#shader fragment", "// #shader vertex"]).type
          = ShaderType.VERTEX
      ∧ ParseShader ["#shader fragment", "// #shader vertex", "x"]
          = { VertexSource := "x\n", FragmentSource := "" }
      ∧ ¬ ("// #shader vertex" ++ "\n").data <:+:
          (ParseShader ["#shader fragment", "// #shader vertex", "x"]).FragmentSource.data := by
  refine ⟨by decide, by decide, by decide, by decide, ?_⟩
  have h : (ParseShader ["#shader fragment", "// #shader vertex", "x"]).FragmentSource = "" := by
    decide
  rw [h]
  simp

/-- C5, amended: a line `L` that does not hold the token `#shader` anywhere and
is read while a stage is active leaves the active stage as it is, and
`L ++ "\n"` enters the output of that stage verbatim, right after what the
stage had received before `L`; the rest of that output and the whole output of
the other stage are what they are without `L`.  This covers every comment line
and every blank line that does not hold the token. -/
theorem ParseShader_body_line_verbatim (pre post : List String) (L : String)
    (hL : find L "#shader" = none)
    (hstage : (parseLoop parseInit pre).type ≠ ShaderType.NONE) :
    (parseLoop parseInit (pre ++ [L])).type = (parseLoop parseInit pre).type
      ∧ ((parseLoop parseInit pre).type = ShaderType.VERTEX →
          ∃ rest : String,
            (ParseShader (pre ++ L :: post)).VertexSource
                = (ParseShader pre).VertexSource ++ (L ++ "\n") ++ rest
              ∧ (ParseShader (pre ++ post)).VertexSource
                = (ParseShader pre).VertexSource ++ rest
              ∧ (ParseShader (pre ++ L :: post)).FragmentSource
                = (ParseShader (pre ++ post)).FragmentSource)
      ∧ ((parseLoop parseInit pre).type = ShaderType.FRAGMENT →
          ∃ rest : String,
            (ParseShader (pre ++ L :: post)).FragmentSource
                = (ParseShader pre).FragmentSource ++ (L ++ "\n") ++ rest
              ∧ (ParseShader (pre ++ post)).FragmentSource
                = (ParseShader pre).FragmentSource ++ rest
              ∧ (ParseShader (pre ++ L :: post)).VertexSource
                = (ParseShader (pre ++ post)).VertexSource) := by
  unfold ParseShader
  simp only [parseLoop_append, parseLoop_cons, parseLoop_nil]
  generalize parseLoop parseInit pre = s at hstage ⊢
  obtain ⟨t, v, f⟩ := s
  rw [parseLine_body _ L hL]
  refine ⟨?_, ?_, ?_⟩
  · cases t <;> rfl
  · intro ht
    simp only at ht
    subst ht
    refine ⟨(parseLoop { type := ShaderType.VERTEX, ss0 := "", ss1 := "" } post).ss0, ?_⟩
    simp only [pushLine]
    rw [parseLoop_shift post ShaderType.VERTEX (v ++ L ++ "\n") f,
      parseLoop_shift post ShaderType.VERTEX v f]
    simp [String.append_assoc]
  · intro ht
    simp only at ht
    subst ht
    refine ⟨(parseLoop { type := ShaderType.FRAGMENT, ss0 := "", ss1 := "" } post).ss1, ?_⟩
    simp only [pushLine]
    rw [parseLoop_shift post ShaderType.FRAGMENT v (f ++ L ++ "\n"),
      parseLoop_shift post ShaderType.FRAGMENT v f]
    simp [String.append_assoc]

theorem ParseShader_body_line_verbatim_witness :
    find "// tint" "#shader" = none
      ∧ (parseLoop parseInit ["#shader vertex", "a"]).type ≠ ShaderType.NONE
      ∧ (parseLoop parseInit (["#shader vertex", "a"] ++ ["// tint"])).type
          = (parseLoop parseInit ["#shader vertex", "a"]).type :=
  ⟨by decide, by decide,
    (ParseShader_body_line_verbatim ["#shader vertex", "a"] ["", "#shader fragment", "b"]
      "// tint" (by decide) (by decide)).1⟩

/-! ## The error guard -/

theorem GLClearErrors_unfold {σ : Type} (w : GuardWorld σ) :
    GLClearErrors w
      = if (glGetError w).1 ≠ GL_NO_ERROR then GLClearErrors (glGetError w).2
        else (glGetError w).2 := by
  rw [GLClearErrors]

/-- With non-zero codes only, the drain loop stops exactly when the queue is
empty and touches nothing else. -/
theorem GLClearErrors_empties {σ : Type} (s : σ) (c : String) (q : List Nat)
    (h : ∀ e ∈ q, e ≠ GL_NO_ERROR) :
    GLClearErrors { state := s, errors := q, cout := c }
      = { state := s, errors := [], cout := c } := by
  induction q with
  | nil =>
    rw [GLClearErrors_unfold]
    simp [glGetError]
  | cons e es ih =>
    have he : e ≠ GL_NO_ERROR := h e (List.mem_cons_self e es)
    rw [GLClearErrors_unfold]
    simp only [glGetError, ne_eq, he, not_false_eq_true, if_true]
    exact ih (fun x hx => h x (List.mem_cons_of_mem e hx))

/-- The guarded call, once the pending queue holds non-zero codes only: the
outcome is read off the errors of the call alone. -/
theorem GLCall_eq {σ : Type} (x : σ → σ × List Nat) (function file : String) (line : Nat)
    (s : σ) (c : String) (q : List Nat) (h : ∀ e ∈ q, e ≠ GL_NO_ERROR) :
    GLCall x function file line { state := s, errors := q, cout := c }
      = (ASSERT (GLLogCall function file line
            { state := (x s).1, errors := (x s).2, cout := c }).1,
          (GLLogCall function file line
            { state := (x s).1, errors := (x s).2, cout := c }).2) := by
  unfold GLCall
  rw [GLClearErrors_empties s c q h]
  simp [runAction]

/-- C6: with the error state a queue of non-zero codes, `GLCall(x)` first
empties the queue (the drain loop is total and leaves nothing pending), then runs
`x`, and `GLLogCall` returns `false`, so that `ASSERT` traps, exactly when `x`
itself raised an error; the outcome is the same for every queue of errors
pending before the call, and the code that is printed is the first one `x`
raised, never a stale one. -/
theorem GLCall_reports_own_errors {σ : Type} (x : σ → σ × List Nat)
    (function file : String) (line : Nat) (w : GuardWorld σ)
    (hq : ∀ e ∈ w.errors, e ≠ GL_NO_ERROR)
    (hx : ∀ e ∈ (x w.state).2, e ≠ GL_NO_ERROR) :
    GLClearErrors w = { w with errors := [] }
      ∧ ((GLLogCall function file line (runAction x (GLClearErrors w))).1 = false
          ↔ (x w.state).2 ≠ [])
      ∧ ((GLCall x function file line w).1 = true ↔ (x w.state).2 ≠ [])
      ∧ (∀ q : List Nat, (∀ e ∈ q, e ≠ GL_NO_ERROR) →
          GLCall x function file line { w with errors := q }
            = GLCall x function file line w)
      ∧ (∀ e es, (x w.state).2 = e :: es →
          (GLCall x function file line w).2
            = { state := (x w.state).1, errors := es,
                cout := w.cout ++ logLine e function file line })
      ∧ ((x w.state).2 = [] →
          (GLCall x function file line w).2
            = { state := (x w.state).1, errors := [], cout := w.cout }) := by
  obtain ⟨s, q, c⟩ := w
  simp only at hq hx ⊢
  refine ⟨GLClearErrors_empties s c q hq, ?_, ?_, ?_, ?_, ?_⟩
  · rw [GLClearErrors_empties s c q hq]
    cases hr : (x s).2 with
    | nil => simp [GLLogCall, glGetError, runAction, hr, GL_NO_ERROR]
    | cons e es =>
      have he : e ≠ 0 := hx e (by rw [hr]; exact List.mem_cons_self e es)
      simp [GLLogCall, glGetError, runAction, hr, he]
  · rw [GLCall_eq x function file line s c q hq]
    cases hr : (x s).2 with
    | nil => simp [GLLogCall, glGetError, ASSERT, GL_NO_ERROR]
    | cons e es =>
      have he : e ≠ 0 := hx e (by rw [hr]; exact List.mem_cons_self e es)
      simp [GLLogCall, glGetError, ASSERT, he]
  · intro q2 hq2
    rw [GLCall_eq x function file line s c q hq, GLCall_eq x function file line s c q2 hq2]
  · intro e es hr
    have he : e ≠ 0 := hx e (by rw [hr]; exact List.mem_cons_self e es)
    rw [GLCall_eq x function file line s c q hq, hr]
    simp [GLLogCall, glGetError, he]
  · intro hr
    rw [GLCall_eq x function file line s c q hq, hr]
    simp [GLLogCall, glGetError, GL_NO_ERROR]

theorem GLCall_reports_own_errors_witness :
    (∀ e ∈ [1280, 1282], e ≠ GL_NO_ERROR) ∧ (∀ e ∈ [1281], e ≠ GL_NO_ERROR)
      ∧ (GLCall (fun n : Nat => (n + 1, [1281])) "glDrawElements" "Application.cpp" 427
          { state := 0, errors := [1280, 1282], cout := "" }).1 = true :=
  ⟨by decide, by decide,
    (GLCall_reports_own_errors (fun n : Nat => (n + 1, [1281])) "glDrawElements"
      "Application.cpp" 427 { state := 0, errors := [1280, 1282], cout := "" }
      (by decide) (by decide)).2.2.1.mpr (by decide)⟩

/-! ## The shader compiler -/

/-- A log stored with its terminating `NUL` is read back as it is, whatever the
memory holds behind it. -/
theorem cString_terminated (log rest : List Char) (h : NUL ∉ log) :
    cString (log ++ NUL :: rest) = log := by
  induction log with
  | nil => simp [cString, List.takeWhile]
  | cons c cs ih =>
    have hc : c ≠ NUL := fun e => h (e ▸ List.mem_cons_self c cs)
    have hcs : NUL ∉ cs := fun m => h (List.mem_cons_of_mem c m)
    have ih2 := ih hcs
    unfold cString at ih2 ⊢
    rw [List.cons_append, List.takeWhile_cons]
    simp [hc, ih2]

/-- C7, as stated, fails twice.  When `glCreateShader` itself fails and hands
back 0, and the status query does not give `GL_FALSE`, `CompileShader` returns
that 0 on its success branch, so 0 is returned without a failed compile.  And
when the driver reports a failed compile with an info log of length 0, it
stores nothing in the buffer, and what is printed after the stage name is the
C string that the uninitialised buffer happens to hold (here `xyz`), not the
(empty) info log of the driver. -/
theorem CompileShader_zero_without_failure :
    (CompileShader failingCreateDriver GL_VERTEX_SHADER "void main(void);"
        { state := (), cout := "", deleted := [], stack := [] }).1 = 0
      ∧ compileStatus failingCreateDriver GL_VERTEX_SHADER "void main(void);"
          { state := (), cout := "", deleted := [], stack := [] } ≠ GL_FALSE
      ∧ ¬ ((CompileShader failingCreateDriver GL_VERTEX_SHADER "void main(void);"
              { state := (), cout := "", deleted := [], stack := [] }).1 = 0
            ↔ compileStatus failingCreateDriver GL_VERTEX_SHADER "void main(void);"
                { state := (), cout := "", deleted := [], stack := [] } = GL_FALSE)
      ∧ compileStatus silentRejectingDriver GL_FRAGMENT_SHADER "vec4 color = ;"
          { state := (), cout := "", deleted := [], stack := ['x', 'y', 'z', NUL] } = GL_FALSE
      ∧ infoLogLength silentRejectingDriver GL_FRAGMENT_SHADER "vec4 color = ;"
          { state := (), cout := "", deleted := [], stack := ['x', 'y', 'z', NUL] } = 0
      ∧ storedLog silentRejectingDriver GL_FRAGMENT_SHADER "vec4 color = ;"
          { state := (), cout := "", deleted := [], stack := ['x', 'y', 'z', NUL] } = []
      ∧ (CompileShader silentRejectingDriver GL_FRAGMENT_SHADER "vec4 color = ;"
          { state := (), cout := "", deleted := [], stack := ['x', 'y', 'z', NUL] }).2.cout
          = "Failed to Compile fragment shader\nxyz\n" := by
  decide

/-- C7, amended: when the driver reports compile status `GL_FALSE`,
`CompileShader` returns 0, prints "Failed to Compile " and the stage name
("vertex shader" for `GL_VERTEX_SHADER`, "fragment shader" for any other type),
a line that is followed by the info log of the driver whenever the driver has
stored that log, ended by `NUL`, in the buffer, and passes the id obtained from
`glCreateShader` to `glDeleteShader` exactly once; otherwise it returns that id
unchanged, prints nothing and deletes nothing.  So the result 0 means a failed
compile whenever the id obtained from `glCreateShader` is not 0. -/
theorem CompileShader_result {σ : Type} (drv : ShaderDriver σ) (type : Nat)
    (source : String) (w : CompileWorld σ) :
    (compileStatus drv type source w = GL_FALSE →
        (CompileShader drv type source w).1 = 0
          ∧ (∃ message : String, (CompileShader drv type source w).2.cout
              = w.cout ++ "Failed to Compile " ++ stageLabel type ++ "\n"
                  ++ message ++ "\n")
          ∧ (∀ log : List Char, storedLog drv type source w = log ++ [NUL] → NUL ∉ log →
              (CompileShader drv type source w).2.cout
                = w.cout ++ "Failed to Compile " ++ stageLabel type ++ "\n"
                    ++ String.mk log ++ "\n")
          ∧ (CompileShader drv type source w).2.deleted
              = w.deleted ++ [createdId drv type w])
      ∧ (compileStatus drv type source w ≠ GL_FALSE →
          (CompileShader drv type source w).1 = createdId drv type w
            ∧ (CompileShader drv type source w).2.cout = w.cout
            ∧ (CompileShader drv type source w).2.deleted = w.deleted)
      ∧ (createdId drv type w ≠ 0 →
          ((CompileShader drv type source w).1 = 0
            ↔ compileStatus drv type source w = GL_FALSE))
      ∧ stageLabel GL_VERTEX_SHADER = "vertex shader"
      ∧ (∀ t : Nat, t ≠ GL_VERTEX_SHADER → stageLabel t = "fragment shader") := by
  have hcout : compileStatus drv type source w = GL_FALSE →
      (CompileShader drv type source w).2.cout
        = w.cout ++ "Failed to Compile " ++ stageLabel type ++ "\n"
            ++ String.mk (cString (storedLog drv type source w
                ++ w.stack.drop (storedLog drv type source w).length)) ++ "\n" := by
    intro h
    unfold compileStatus compiledState createdId at h
    simp only [CompileShader, h, if_true]
    rfl
  have hzero : compileStatus drv type source w = GL_FALSE →
      (CompileShader drv type source w).1 = 0
        ∧ (CompileShader drv type source w).2.deleted
            = w.deleted ++ [createdId drv type w] := by
    intro h
    unfold compileStatus compiledState createdId at h
    simp only [CompileShader, h, if_true]
    exact ⟨trivial, rfl⟩
  have hok : compileStatus drv type source w ≠ GL_FALSE →
      (CompileShader drv type source w).1 = createdId drv type w
        ∧ (CompileShader drv type source w).2.cout = w.cout
        ∧ (CompileShader drv type source w).2.deleted = w.deleted := by
    intro h
    unfold compileStatus compiledState createdId at h
    simp only [CompileShader, h, if_false]
    exact ⟨rfl, trivial, trivial⟩
  refine ⟨?_, hok, ?_, by decide, ?_⟩
  · intro h
    refine ⟨(hzero h).1, ⟨_, hcout h⟩, ?_, (hzero h).2⟩
    intro log hlog hnul
    rw [hcout h, hlog, List.length_append, List.length_singleton, List.append_assoc,
      List.singleton_append, cString_terminated log _ hnul]
  · intro hid
    constructor
    · intro h0
      by_contra hne
      exact hid ((hok hne).1 ▸ h0)
    · intro h
      exact (hzero h).1
  · intro t ht
    simp [stageLabel, ht]

theorem CompileShader_result_witness :
    compileStatus rejectingDriver GL_FRAGMENT_SHADER "vec4 color = ;"
        { state := (), cout := "", deleted := [], stack := ['?', '?'] } = GL_FALSE
      ∧ (CompileShader rejectingDriver GL_FRAGMENT_SHADER "vec4 color = ;"
          { state := (), cout := "", deleted := [], stack := ['?', '?'] }).1 = 0
      ∧ (CompileShader rejectingDriver GL_FRAGMENT_SHADER "vec4 color = ;"
          { state := (), cout := "", deleted := [], stack := ['?', '?'] }).2.cout
          = "" ++ "Failed to Compile " ++ stageLabel GL_FRAGMENT_SHADER ++ "\n"
              ++ String.mk "ERROR: 0:1: syntax error".data ++ "\n"
      ∧ (CompileShader rejectingDriver GL_FRAGMENT_SHADER "vec4 color = ;"
          { state := (), cout := "", deleted := [], stack := ['?', '?'] }).2.deleted
          = [] ++ [createdId rejectingDriver GL_FRAGMENT_SHADER
              { state := (), cout := "", deleted := [], stack := ['?', '?'] }] :=
  have h := (CompileShader_result rejectingDriver GL_FRAGMENT_SHADER "vec4 color = ;"
    { state := (), cout := "", deleted := [], stack := ['?', '?'] }).1 (by decide)
  ⟨by decide, h.1, h.2.2.1 "ERROR: 0:1: syntax error".data (by decide) (by decide), h.2.2.2⟩

/-! ## The animation scalar -/

/-! ### In exact rationals -/

theorem exactAfter_succ (n : Nat) : exactAfter (n + 1) = exactStep (exactAfter n) := by
  unfold exactAfter
  rw [Function.iterate_succ_apply']

/-- While the increment is positive and `r` has not passed 1, `r` climbs. -/
theorem exactStep_up (r : ℚ) (h0 : 0 ≤ r) (h1 : r ≤ 1) :
    exactStep { r := r, increment := 5 / 100 } = { r := r + 5 / 100, increment := 5 / 100 } := by
  unfold exactStep
  simp [not_lt.mpr h1, not_lt.mpr h0]

/-- While the increment is negative and `r` has not passed 0, `r` falls. -/
theorem exactStep_down (r : ℚ) (h0 : 0 ≤ r) (h1 : r ≤ 1) :
    exactStep { r := r, increment := -(5 / 100) }
      = { r := r + -(5 / 100), increment := -(5 / 100) } := by
  unfold exactStep
  simp [not_lt.mpr h1, not_lt.mpr h0]

/-- The climbing phase: the first 21 iterations. -/
theorem exactAfter_climb (k : Nat) (hk : k ≤ 21) :
    exactAfter k = { r := (k : ℚ) * (5 / 100), increment := 5 / 100 } := by
  induction k with
  | zero => simp [exactAfter, exactInit]
  | succ n ih =>
    have hn : (n : ℚ) ≤ 20 := by exact_mod_cast Nat.le_of_succ_le_succ hk
    have hn0 : (0 : ℚ) ≤ n := Nat.cast_nonneg n
    rw [exactAfter_succ, ih (Nat.le_of_succ_le hk), exactStep_up _ (by positivity) (by linarith)]
    congr 1
    push_cast
    ring

/-- The falling phase: iterations 22 to 43. -/
theorem exactAfter_fall (j : Nat) (hj : j ≤ 21) :
    exactAfter (22 + j) = { r := 1 - (j : ℚ) * (5 / 100), increment := -(5 / 100) } := by
  induction j with
  | zero =>
    have h21 := exactAfter_climb 21 (Nat.le_refl 21)
    rw [Nat.add_zero, exactAfter_succ, h21]
    unfold exactStep
    norm_num
  | succ n ih =>
    have hn : (n : ℚ) ≤ 20 := by exact_mod_cast Nat.le_of_succ_le_succ hj
    have hn0 : (0 : ℚ) ≤ n := Nat.cast_nonneg n
    rw [← Nat.add_assoc, exactAfter_succ, ih (Nat.le_of_succ_le hj),
      exactStep_down _ (by linarith) (by linarith)]
    congr 1
    push_cast
    ring

set_option maxRecDepth 1000000 in
/-- The locals of the program at the start of the run and around its turns. -/
theorem animAfter_values :
    animAfter 0 = some { r := 0, increment := 13421773 * 2 ^ 121 }
      ∧ animAfter 1 = some { r := 13421773 * 2 ^ 121, increment := 13421773 * 2 ^ 121 }
      ∧ animAfter 20 = some { r := 268435488 * 2 ^ 121, increment := 13421773 * 2 ^ 121 }
      ∧ animAfter 21 = some { r := 255013712 * 2 ^ 121, increment := -(13421773 * 2 ^ 121) }
      ∧ animAfter 40 = some { r := -(10 * 2 ^ 121), increment := -(13421773 * 2 ^ 121) }
      ∧ animAfter 41 = some { r := 13421763 * 2 ^ 121, increment := 13421773 * 2 ^ 121 }
      ∧ animAfter 100 = some { r := 268435488 * 2 ^ 121, increment := 13421773 * 2 ^ 121 } := by
  decide

/-- C8, as stated, fails.  In the binary32 arithmetic of the program, after 21
iterations the increment is negative but `r` is 255013712 / 2^28, about 0.95
and below 1.0; after 41 iterations the increment is positive but `r` is
13421763 / 2^28, about 0.05 and not 0.0.  With `r` and the increment taken as
exact rationals, after 21 iterations the increment is still positive (`r` is
1.05), and after 41 iterations `r` is 0.05 with the increment still negative. -/
theorem animAfter_21_41_not_as_stated :
    (animAfter 21).map animToRat = some (255013712 / 2 ^ 28, -(13421773 / 2 ^ 28))
      ∧ ¬ ((255013712 : ℚ) / 2 ^ 28 ≥ 1)
      ∧ (animAfter 41).map animToRat = some (13421763 / 2 ^ 28, 13421773 / 2 ^ 28)
      ∧ ¬ ((13421763 : ℚ) / 2 ^ 28 = 0)
      ∧ exactAfter 21 = { r := 105 / 100, increment := 5 / 100 }
      ∧ exactAfter 41 = { r := 5 / 100, increment := -(5 / 100) }
      ∧ ¬ ((exactAfter 21).r ≥ 1 ∧ (exactAfter 21).increment < 0
            ∧ (exactAfter 41).r = 0 ∧ (exactAfter 41).increment > 0) := by
  have h21 : exactAfter 21 = { r := 105 / 100, increment := 5 / 100 } := by
    rw [exactAfter_climb 21 (Nat.le_refl 21)]
    norm_num
  have h41 : exactAfter 41 = { r := 5 / 100, increment := -(5 / 100) } := by
    rw [show (41 : Nat) = 22 + 19 from rfl, exactAfter_fall 19 (by decide)]
    norm_num
  refine ⟨?_, by norm_num, ?_, by norm_num, h21, h41, ?_⟩
  · rw [animAfter_values.2.2.2.1]
    simp only [Option.map_some', animToRat, f32ToRat]
    norm_num
  · rw [animAfter_values.2.2.2.2.2.1]
    simp only [Option.map_some', animToRat, f32ToRat]
    norm_num
  · rw [h21]
    norm_num

/-- C8, amended: in the binary32 arithmetic of the program, from `r = 0.0f` and
`increment = 0.05f = 13421773 / 2^28`: after 20 iterations `r` is `1 + 2^-23`,
at least 1.0, with the increment still `+0.05f`; the 21st iteration flips the
increment to `-0.05f` and leaves `r` at 255013712 / 2^28, about 0.95; after 40
iterations `r` is `-10 / 2^28`, just below 0.0, with the increment still
`-0.05f`; the 41st iteration flips the increment to `+0.05f` and leaves `r` at
13421763 / 2^28, about 0.05. -/
theorem animAfter_turning_points :
    (animAfter 0).map animToRat = some (0, 13421773 / 2 ^ 28)
      ∧ (animAfter 20).map animToRat = some (1 + 1 / 2 ^ 23, 13421773 / 2 ^ 28)
      ∧ (1 : ℚ) ≤ 1 + 1 / 2 ^ 23
      ∧ (animAfter 21).map animToRat = some (255013712 / 2 ^ 28, -(13421773 / 2 ^ 28))
      ∧ (animAfter 40).map animToRat = some (-(10 / 2 ^ 28), -(13421773 / 2 ^ 28))
      ∧ (animAfter 41).map animToRat = some (13421763 / 2 ^ 28, 13421773 / 2 ^ 28) := by
  refine ⟨?_, ?_, by norm_num, ?_, ?_, ?_⟩
  · rw [animAfter_values.1]
    simp only [Option.map_some', animToRat, f32ToRat]
    norm_num
  · rw [animAfter_values.2.2.1]
    simp only [Option.map_some', animToRat, f32ToRat]
    norm_num
  · rw [animAfter_values.2.2.2.1]
    simp only [Option.map_some', animToRat, f32ToRat]
    norm_num
  · rw [animAfter_values.2.2.2.2.1]
    simp only [Option.map_some', animToRat, f32ToRat]
    norm_num
  · rw [animAfter_values.2.2.2.2.2.1]
    simp only [Option.map_some', animToRat, f32ToRat]
    norm_num

/-- C10: `positions` holds 12 floats, 3 per vertex, hence 4 vertices; every
entry of `indices` is below 4; and the count 6 given to `glDrawElements` is the
length of `indices`, so the draw reads the whole index buffer and no index of 4
or more. -/
theorem indices_within_vertexCount :
    positions.length = 12 ∧ attribSize = 3 ∧ vertexCount = 4
      ∧ indices = [0, 1, 2, 2, 3, 0]
      ∧ (∀ i ∈ indices, i < vertexCount)
      ∧ drawCount = 6 ∧ drawCount = indices.length
      ∧ indices.take drawCount = indices
      ∧ (∀ i ∈ indices.take drawCount, i < 4) := by
  decide

/-! ## The loader: how a line is classified -/

/-- The search succeeds exactly when the pattern occurs in the remaining text. -/
theorem findFrom_ne_none_iff (pat hay : List Char) (pos : Nat) :
    findFrom pat hay pos ≠ none ↔ pat <:+: hay := by
  induction hay generalizing pos with
  | nil =>
    unfold findFrom
    rw [List.infix_nil]
    by_cases hp : pat.isPrefixOf [] = true
    · rw [if_pos hp]
      have hnil : pat = [] := List.prefix_nil.mp (List.isPrefixOf_iff_prefix.mp hp)
      simp [hnil]
    · rw [if_neg hp]
      have hne : pat ≠ [] := by
        intro hnil
        apply hp
        rw [hnil]
        rfl
      simp [hne]
  | cons c cs ih =>
    unfold findFrom
    rw [List.infix_cons_iff]
    by_cases hp : pat.isPrefixOf (c :: cs) = true
    · rw [if_pos hp]
      have hpre : pat <+: c :: cs := List.isPrefixOf_iff_prefix.mp hp
      simp [hpre]
    · rw [if_neg hp, ih (pos + 1)]
      have hpre : ¬ pat <+: c :: cs := fun h => hp (List.isPrefixOf_iff_prefix.mpr h)
      simp [hpre]

/-- The call `line.find(pat)` differs from `npos` exactly when `line` contains
`pat`. -/
theorem find_ne_none_iff (line pat : String) :
    find line pat ≠ none ↔ containsSubstring line pat := by
  unfold find containsSubstring
  exact findFrom_ne_none_iff pat.data line.data 0

theorem find_eq_none_iff (line pat : String) :
    find line pat = none ↔ ¬ containsSubstring line pat := by
  rw [← find_ne_none_iff]
  exact not_not.symm

/-- C11: one iteration of the loop treats `line` as a marker line exactly when
`line` contains `#shader` at some position.  For such a line the keyword is
looked for in the whole line: when the line contains `vertex` the active stage
becomes vertex, also when it contains `fragment` too; otherwise, when it
contains `fragment`, the active stage becomes fragment; otherwise the active
stage stays as it was; in all three cases both buffers stay as they were.  A
line that does not contain `#shader` is handled as body text. -/
theorem parseLine_marker_classification (st : ParseState) (line : String) :
    (find line "#shader" ≠ none ↔ containsSubstring line "#shader")
      ∧ (containsSubstring line "#shader" →
          (parseLine st line).ss0 = st.ss0 ∧ (parseLine st line).ss1 = st.ss1
            ∧ (containsSubstring line "vertex" →
                (parseLine st line).type = ShaderType.VERTEX)
            ∧ (¬ containsSubstring line "vertex" → containsSubstring line "fragment" →
                (parseLine st line).type = ShaderType.FRAGMENT)
            ∧ (¬ containsSubstring line "vertex" → ¬ containsSubstring line "fragment" →
                (parseLine st line).type = st.type))
      ∧ (¬ containsSubstring line "#shader" →
          parseLine st line = pushLine st line
            ∧ (parseLine st line).type = st.type) := by
  refine ⟨find_ne_none_iff line "#shader", ?_, ?_⟩
  · intro hm
    have h1 : find line "#shader" ≠ none := (find_ne_none_iff line "#shader").mpr hm
    refine ⟨?_, ?_, ?_, ?_, ?_⟩
    · unfold parseLine
      rw [if_pos h1]
      split
      · rfl
      · split <;> rfl
    · unfold parseLine
      rw [if_pos h1]
      split
      · rfl
      · split <;> rfl
    · intro hv
      have h2 : find line "vertex" ≠ none := (find_ne_none_iff line "vertex").mpr hv
      unfold parseLine
      rw [if_pos h1, if_pos h2]
    · intro hv hf
      have h2 : ¬ find line "vertex" ≠ none :=
        fun h => hv ((find_ne_none_iff line "vertex").mp h)
      have h3 : find line "fragment" ≠ none := (find_ne_none_iff line "fragment").mpr hf
      unfold parseLine
      rw [if_pos h1, if_neg h2, if_pos h3]
    · intro hv hf
      have h2 : ¬ find line "vertex" ≠ none :=
        fun h => hv ((find_ne_none_iff line "vertex").mp h)
      have h3 : ¬ find line "fragment" ≠ none :=
        fun h => hf ((find_ne_none_iff line "fragment").mp h)
      unfold parseLine
      rw [if_pos h1, if_neg h2, if_neg h3]
  · intro hm
    have h1 : find line "#shader" = none := (find_eq_none_iff line "#shader").mpr hm
    rw [parseLine_body st line h1]
    refine ⟨rfl, ?_⟩
    obtain ⟨t, v, f⟩ := st
    cases t <;> rfl

theorem parseLine_marker_classification_witness :
    containsSubstring "fragment, not vertex: #shader" "#shader"
      ∧ containsSubstring "fragment, not vertex: #shader" "vertex"
      ∧ containsSubstring "fragment, not vertex: #shader" "fragment"
      ∧ (parseLine { type := ShaderType.FRAGMENT, ss0 := "a\n", ss1 := "b\n" }
          "fragment, not vertex: #shader").ss0 = "a\n"
      ∧ (parseLine { type := ShaderType.FRAGMENT, ss0 := "a\n", ss1 := "b\n" }
          "fragment, not vertex: #shader").ss1 = "b\n"
      ∧ (parseLine { type := ShaderType.FRAGMENT, ss0 := "a\n", ss1 := "b\n" }
          "fragment, not vertex: #shader").type = ShaderType.VERTEX :=
  have hm : containsSubstring "fragment, not vertex: #shader" "#shader" := by
    unfold containsSubstring; decide
  have hv : containsSubstring "fragment, not vertex: #shader" "vertex" := by
    unfold containsSubstring; decide
  have hf : containsSubstring "fragment, not vertex: #shader" "fragment" := by
    unfold containsSubstring; decide
  have h := (parseLine_marker_classification
    { type := ShaderType.FRAGMENT, ss0 := "a\n", ss1 := "b\n" }
    "fragment, not vertex: #shader").2.1 hm
  ⟨hm, hv, hf, h.1, h.2.1, h.2.2.1 hv⟩

end Application
